import Mathlib

/-
Verification of the versionator test fixtures: three small Rust programs
that print a version string.

Process A (src/examples/rust/main.rs):
  let version = option_env!("VERSION").unwrap_or("0.0.0");
  println!("Sample Rust Application");
  println!("Version: {}", version);

Process B (src/tests/containers/projects/rust/link/src/main.rs):
  const VERSION: &str = env!("VERSION");
  fn main() { println!("Version: {}", VERSION); }

Process C (src/tests/containers/projects/rust/patch/src/main.rs):
  let cargo_toml = fs::read_to_string("Cargo.toml").expect("Failed to read Cargo.toml");
  let parsed: toml::Value = cargo_toml.parse().expect("Failed to parse Cargo.toml");
  let version = parsed["package"]["version"].as_str().unwrap_or("unknown");
  println!("Version: {}", version);

Every println! output is modelled with its trailing newline. A panic (from
expect or from the toml crate's Index impl) terminates the process with a
non-zero status (Rust uses 101) before anything further is printed.
-/

namespace Versionator

/-- TOML values as exposed by the external toml crate (the constructors the
fixture can observe: strings, integers, booleans, arrays and tables; the
remaining variants such as floats and datetimes behave like `int` here,
namely they are not strings and not tables). -/
inductive TVal where
  | str (s : String)
  | int (n : Int)
  | boolean (b : Bool)
  | arr (vs : List TVal)
  | table (kvs : List (String × TVal))

/-- Association-list lookup for table entries. -/
def lookupKey : List (String × TVal) → String → Option TVal
  | [], _ => none
  | (k', v) :: rest, k => if k' = k then some v else lookupKey rest k

/-- toml crate: `Value::get` with a string index returns `Some` only when the
value is a table holding the key, otherwise `None`. -/
def TVal.get : TVal → String → Option TVal
  | .table kvs, k => lookupKey kvs k
  | _, _ => none

/-- toml crate: `Value::as_str` returns the string when the value is a
string, otherwise `None`. -/
def TVal.as_str : TVal → Option String
  | .str s => some s
  | _ => none

/-- How a process run ended: normal exit, or a panic carrying its message. -/
inductive ExitStatus where
  | success
  | panicked (msg : String)
deriving DecidableEq

/-- The exit status code of the OS process: 0 on normal exit, 101 when a
Rust panic aborted the run. -/
def exitCode : ExitStatus → Nat
  | .success => 0
  | .panicked _ => 101

/-- Observable outcome of one run: everything written to standard output,
and how the process terminated. -/
structure RunResult where
  stdout : String
  exit : ExitStatus
deriving DecidableEq

/-- Process A: `option_env!("VERSION")` is the compile-time environment
lookup (`versionEnv`), `unwrap_or` supplies the "0.0.0" default, then the
two println! calls write the banner line and the version line. -/
def processA (versionEnv : Option String) : RunResult :=
  { stdout := "Sample Rust Application\n" ++ "Version: " ++ versionEnv.getD "0.0.0" ++ "\n"
    exit := .success }

/-- Result of compiling Process B: `env!("VERSION")` either yields the
variable's value as the constant VERSION, or aborts the build when the
variable is unset at compile time. -/
inductive BuildResult where
  | built (VERSION : String)
  | buildError (msg : String)
deriving DecidableEq

/-- Process B compile step: `env!("VERSION")` resolves the compile-time
environment; an unset variable is a compile error, so no binary exists. -/
def compileB (versionEnv : Option String) : BuildResult :=
  match versionEnv with
  | some v => .built v
  | none => .buildError "environment variable `VERSION` not defined"

/-- Process B runtime: the compiled binary holds the constant and prints
one version line. -/
def processB (VERSION : String) : RunResult :=
  { stdout := "Version: " ++ VERSION ++ "\n", exit := .success }

/-- Filesystem operations a run can perform, recorded in the trace. -/
inductive FsOp where
  | read (path : String)
  | write (path : String)
deriving DecidableEq

/-- The filesystem as seen by Process C: file contents by path, plus the
trace of operations performed so far. -/
structure FsState where
  files : String → Option String
  trace : List FsOp

/-- fs::read_to_string: returns the file's content when the path is
readable, records the read, and leaves every file untouched. -/
def readToString (path : String) (s : FsState) : Option String × FsState :=
  (s.files path, { s with trace := s.trace ++ [.read path] })

/-- fs::write counterpart of the API (unused by Process C): replaces the
file's content and records the write. -/
def writeString (path content : String) (s : FsState) : Unit × FsState :=
  ((), { files := fun p => if p = path then some content else s.files p
         trace := s.trace ++ [.write path] })

/-- Pure part of Process C after the file read. `expect` panics with its
message when the read or the parse failed; `parsed["package"]["version"]`
is the toml crate's Index impl, `self.get(index).expect("index not found")`,
so a missing key or a non-table panics with "index not found"; finally
`as_str().unwrap_or("unknown")` substitutes "unknown" for a value that
exists but is not a string, and println! prints the version line. -/
def processCOutcome (content : Option String) (parse : String → Option TVal) : RunResult :=
  match content with
  | none => { stdout := "", exit := .panicked "Failed to read Cargo.toml" }
  | some cargoToml =>
    match parse cargoToml with
    | none => { stdout := "", exit := .panicked "Failed to parse Cargo.toml" }
    | some parsed =>
      match parsed.get "package" with
      | none => { stdout := "", exit := .panicked "index not found" }
      | some pkg =>
        match pkg.get "version" with
        | none => { stdout := "", exit := .panicked "index not found" }
        | some ver =>
          { stdout := "Version: " ++ (ver.as_str.getD "unknown") ++ "\n"
            exit := .success }

/-- Process C entry point: read Cargo.toml from the current directory, then
run the pure remainder. `parse` stands for the external toml crate's
document parser (`cargo_toml.parse::<toml::Value>()`), abstracted as a
parameter since the crate is not part of this repository. -/
def mainC (parse : String → Option TVal) (s : FsState) : RunResult × FsState :=
  let (content, s1) := readToString "Cargo.toml" s
  (processCOutcome content parse, s1)

/-- A filesystem holding exactly one file, Cargo.toml, with the given
content, and an empty trace. -/
def fsOnlyCargo (content : String) : FsState :=
  { files := fun p => if p = "Cargo.toml" then some content else none
    trace := [] }

/-- A parser stub returning the empty TOML document (the empty table) for
any input: the parse result of an empty Cargo.toml. -/
def parseEmptyTable : String → Option TVal := fun _ => some (.table [])

/-- A parser stub returning a document whose package table carries the given
version value: the parse result of a manifest with that package.version. -/
def parsePkgVersion (v : TVal) : String → Option TVal :=
  fun _ => some (.table [("package", .table [("version", v)])])

/-- A filesystem holding no readable file at all. -/
def fsEmpty : FsState := { files := fun _ => none, trace := [] }

/-- A parser stub rejecting every input: the parse result of a malformed
manifest. -/
def parseFail : String → Option TVal := fun _ => none

/-- C1 counterexample: on a readable Cargo.toml whose parse result is the
empty table — so package.version is absent — Process C does not print
"Version: unknown" and does not exit normally; it panics (with the toml
Index message "index not found") having printed nothing. -/
theorem mainC_missing_key_panics_cex :
    ¬ ((Versionator.mainC Versionator.parseEmptyTable (Versionator.fsOnlyCargo "")).1.stdout
          = "Version: unknown\n"
        ∧ (Versionator.mainC Versionator.parseEmptyTable (Versionator.fsOnlyCargo "")).1.exit
          = .success) := by
  decide

/-- C1 amended: if Cargo.toml is readable and parses as TOML but the nested
key package.version is absent (including when the top-level package table
itself is absent), Process C panics with "index not found" — terminating
abnormally with nothing printed to standard output — rather than printing
"Version: unknown". -/
theorem mainC_missing_key_panics (parse : String → Option TVal) (s : FsState)
    (c : String) (t : TVal)
    (hread : s.files "Cargo.toml" = some c) (hparse : parse c = some t)
    (habs : t.get "package" = none
        ∨ ∃ p, t.get "package" = some p ∧ p.get "version" = none) :
    (mainC parse s).1 = { stdout := "", exit := .panicked "index not found" } := by
  unfold mainC readToString processCOutcome
  simp only [hread, hparse]
  rcases habs with h | ⟨p, hp, hv⟩
  · simp [h]
  · simp [hp, hv]

/-- C1 amended, instantiated: the empty-table document on a readable file. -/
theorem mainC_missing_key_panics_witness :
    (Versionator.mainC Versionator.parseEmptyTable (Versionator.fsOnlyCargo "")).1
      = { stdout := "", exit := .panicked "index not found" } :=
  Versionator.mainC_missing_key_panics Versionator.parseEmptyTable
    (Versionator.fsOnlyCargo "") "" (.table []) (by decide) rfl (Or.inl rfl)

/-- C2: whenever Cargo.toml cannot be read, or reads but does not parse as
TOML, Process C panics (a diagnostic message, from the corresponding expect
call) with exit status 101 ≠ 0, and its standard output is the empty
string — in particular no line beginning with "Version:" is printed. -/
theorem mainC_fatal_on_read_or_parse_failure (parse : String → Option TVal)
    (s : FsState)
    (h : s.files "Cargo.toml" = none
        ∨ ∃ c, s.files "Cargo.toml" = some c ∧ parse c = none) :
    (mainC parse s).1.stdout = ""
      ∧ exitCode (mainC parse s).1.exit ≠ 0
      ∧ ((mainC parse s).1.exit = .panicked "Failed to read Cargo.toml"
          ∨ (mainC parse s).1.exit = .panicked "Failed to parse Cargo.toml") := by
  unfold mainC readToString processCOutcome
  rcases h with h | ⟨c, hc, hp⟩
  · simp [h, exitCode]
  · simp [hc, hp, exitCode]

/-- C2 instantiated: an unreadable filesystem, and separately a readable
file with a failing parse. -/
theorem mainC_fatal_on_read_or_parse_failure_witness :
    (Versionator.mainC Versionator.parseFail Versionator.fsEmpty).1.stdout = ""
      ∧ Versionator.exitCode
          (Versionator.mainC Versionator.parseFail Versionator.fsEmpty).1.exit ≠ 0
      ∧ ((Versionator.mainC Versionator.parseFail Versionator.fsEmpty).1.exit
            = .panicked "Failed to read Cargo.toml"
          ∨ (Versionator.mainC Versionator.parseFail Versionator.fsEmpty).1.exit
            = .panicked "Failed to parse Cargo.toml") :=
  Versionator.mainC_fatal_on_read_or_parse_failure Versionator.parseFail
    Versionator.fsEmpty (Or.inl rfl)

/-- C3: when Cargo.toml is readable and parses to a document whose package
table has a version key holding the string V, Process C writes exactly the
line "Version: V" to standard output and exits normally. -/
theorem mainC_prints_version (parse : String → Option TVal) (s : FsState)
    (c : String) (t pkg : TVal) (V : String)
    (hread : s.files "Cargo.toml" = some c) (hparse : parse c = some t)
    (hpkg : t.get "package" = some pkg)
    (hver : pkg.get "version" = some (.str V)) :
    (mainC parse s).1 = { stdout := "Version: " ++ V ++ "\n", exit := .success } := by
  unfold mainC readToString processCOutcome
  simp [hread, hparse, hpkg, hver, TVal.as_str]

/-- C3 instantiated at package.version = "1.2.3". -/
theorem mainC_prints_version_witness :
    (Versionator.mainC (Versionator.parsePkgVersion (.str "1.2.3"))
        (Versionator.fsOnlyCargo "x")).1
      = { stdout := "Version: 1.2.3\n", exit := .success } :=
  Versionator.mainC_prints_version (Versionator.parsePkgVersion (.str "1.2.3"))
    (Versionator.fsOnlyCargo "x") "x"
    (.table [("package", .table [("version", .str "1.2.3")])])
    (.table [("version", .str "1.2.3")]) "1.2.3"
    (by decide) rfl rfl rfl

/-- C4: for every compile-time environment, Process A exits normally and its
standard output is exactly the banner line "Sample Rust Application"
followed by the line "Version: v", where v is the VERSION value when the
variable was set at compile time and "0.0.0" otherwise — the two println
calls and nothing else. -/
theorem processA_output (versionEnv : Option String) :
    processA versionEnv
      = { stdout := "Sample Rust Application\n"
            ++ "Version: " ++ (match versionEnv with
                | some v => v
                | none => "0.0.0") ++ "\n"
          exit := .success } := by
  cases versionEnv <;> rfl

/-- C5: with VERSION set to any string V at compile time, Process B builds,
its standard output is exactly the single line "Version: V", and it exits
normally; with VERSION unset the build fails, so no binary and no runtime
behaviour exists. -/
theorem processB_output (V : String) :
    compileB (some V) = .built V
      ∧ processB V = { stdout := "Version: " ++ V ++ "\n", exit := .success }
      ∧ compileB none = .buildError "environment variable `VERSION` not defined" :=
  ⟨rfl, rfl, rfl⟩

/-- C6: Process A has no runtime failure path: with VERSION set or unset at
compile time it always exits normally (status 0) after printing. -/
theorem processA_never_fails (versionEnv : Option String) :
    (processA versionEnv).exit = .success
      ∧ exitCode (processA versionEnv).exit = 0 :=
  ⟨rfl, rfl⟩

/-- C7: when the manifest parses and the key path package.version is present
but its value is not a string (as_str gives none: an integer, a table, ...),
Process C does not fail: it prints exactly "Version: unknown" and exits
normally. -/
theorem mainC_nonstring_version_unknown (parse : String → Option TVal)
    (s : FsState) (c : String) (t pkg ver : TVal)
    (hread : s.files "Cargo.toml" = some c) (hparse : parse c = some t)
    (hpkg : t.get "package" = some pkg)
    (hver : pkg.get "version" = some ver)
    (hns : ver.as_str = none) :
    (mainC parse s).1 = { stdout := "Version: unknown\n", exit := .success } := by
  unfold mainC readToString processCOutcome
  simp [hread, hparse, hpkg, hver, hns]

/-- C7 instantiated at package.version = 7 (an integer). -/
theorem mainC_nonstring_version_unknown_witness :
    (Versionator.mainC (Versionator.parsePkgVersion (.int 7))
        (Versionator.fsOnlyCargo "x")).1
      = { stdout := "Version: unknown\n", exit := .success } :=
  Versionator.mainC_nonstring_version_unknown
    (Versionator.parsePkgVersion (.int 7)) (Versionator.fsOnlyCargo "x") "x"
    (.table [("package", .table [("version", .int 7)])])
    (.table [("version", .int 7)]) (.int 7)
    (by decide) rfl rfl rfl rfl

/-- C8: under the precondition that Cargo.toml is readable, parses, and the
root table has a package entry that is a table with a version entry, Process
C never panics: both expect calls and both index operations succeed, and the
run exits normally after printing the single line "Version: s" where s is
the version value when it is a string and "unknown" otherwise. -/
theorem mainC_no_panic_when_key_present (parse : String → Option TVal)
    (s : FsState) (c : String) (t pkg ver : TVal)
    (hread : s.files "Cargo.toml" = some c) (hparse : parse c = some t)
    (hpkg : t.get "package" = some pkg)
    (hver : pkg.get "version" = some ver) :
    (mainC parse s).1.exit = .success
      ∧ (mainC parse s).1.stdout
          = "Version: " ++ (ver.as_str.getD "unknown") ++ "\n" := by
  unfold mainC readToString processCOutcome
  simp [hread, hparse, hpkg, hver]

/-- C8 instantiated at a boolean version value. -/
theorem mainC_no_panic_when_key_present_witness :
    (Versionator.mainC (Versionator.parsePkgVersion (.boolean true))
        (Versionator.fsOnlyCargo "y")).1.exit = .success
      ∧ (Versionator.mainC (Versionator.parsePkgVersion (.boolean true))
            (Versionator.fsOnlyCargo "y")).1.stdout
          = "Version: " ++ ((Versionator.TVal.boolean true).as_str.getD "unknown")
              ++ "\n" :=
  Versionator.mainC_no_panic_when_key_present
    (Versionator.parsePkgVersion (.boolean true)) (Versionator.fsOnlyCargo "y") "y"
    (.table [("package", .table [("version", .boolean true)])])
    (.table [("version", .boolean true)]) (.boolean true)
    (by decide) rfl rfl rfl

/-- C9: each program is deterministic: identical inputs give identical
outcomes. For Processes A and B the input is the compile-time VERSION value;
for Process C it is the file contents (the trace so far is irrelevant to the
outcome) together with the parser's behaviour. -/
theorem all_processes_deterministic (e e' : Option String) (V V' : String)
    (parse parse' : String → Option TVal) (s s' : FsState)
    (he : e = e') (hV : V = V') (hparse : parse = parse')
    (hfiles : s.files = s'.files) :
    processA e = processA e'
      ∧ processB V = processB V'
      ∧ (mainC parse s).1 = (mainC parse' s').1 := by
  subst he hV hparse
  refine ⟨rfl, rfl, ?_⟩
  unfold mainC readToString
  simp [hfiles]

/-- C9 instantiated at equal concrete inputs for all three processes. -/
theorem all_processes_deterministic_witness :
    Versionator.processA (some "1.0") = Versionator.processA (some "1.0")
      ∧ Versionator.processB "2.0" = Versionator.processB "2.0"
      ∧ (Versionator.mainC Versionator.parseEmptyTable
            (Versionator.fsOnlyCargo "z")).1
          = (Versionator.mainC Versionator.parseEmptyTable
                (Versionator.fsOnlyCargo "z")).1 :=
  Versionator.all_processes_deterministic (some "1.0") (some "1.0") "2.0" "2.0"
    Versionator.parseEmptyTable Versionator.parseEmptyTable
    (Versionator.fsOnlyCargo "z") (Versionator.fsOnlyCargo "z")
    rfl rfl rfl rfl

/-- C10: Process C never modifies the filesystem: after any run — normal or
fatal — every file's content is what it was before, and the trace records
exactly one operation, the read of Cargo.toml. -/
theorem mainC_frame (parse : String → Option TVal) (s : FsState) :
    (mainC parse s).2.files = s.files
      ∧ (mainC parse s).2.trace = s.trace ++ [.read "Cargo.toml"] :=
  ⟨rfl, rfl⟩

end Versionator
